import Mathlib

/-!
Shallow embedding of the shown core of the pyowm repository:
`pyowm/alertingapi30/trigger.py` (the `Trigger` entity) and the
`ImageTypeEnum` registry exercised by `tests/unit/commons/test_enums.py`.
Python methods become Lean functions; fallible constructors return
`Except`; the Python loops are transliterated as structural recursions.
-/

set_option autoImplicit false

namespace Pyowm

/-! ### Time normalization collaborator (`pyowm.utils.timeformatutils`) -/

/-- Modelled from the spec: the time-normalization collaborator
`timeformatutils.to_UNIXtime` accepts an integer epoch, a structured
date-time value, or an ISO-8601 formatted string.  The three accepted
shapes are modelled as a tagged union. -/
inductive TimeInput where
  | unix (n : Int)
  | dateTime (year month day hour minute second : Nat)
  | iso8601 (s : String)
deriving DecidableEq

/-- Gregorian leap-year test. -/
def isLeap (y : Nat) : Bool :=
  (y % 4 == 0 && y % 100 != 0) || (y % 400 == 0)

/-- Number of days in a given month of a given year. -/
def daysInMonth (y m : Nat) : Nat :=
  if m = 2 then (if isLeap y then 29 else 28)
  else if m = 4 || m = 6 || m = 9 || m = 11 then 30
  else 31

/-- Days in a whole year. -/
def daysInYear (y : Nat) : Nat :=
  if isLeap y then 366 else 365

/-- Days contained in the years `1970, 1971, ..., 1970 + n - 1`. -/
def daysBeforeYearOffset : Nat → Nat
  | 0 => 0
  | n + 1 => daysBeforeYearOffset n + daysInYear (1970 + n)

/-- Days contained in the months `1, ..., m - 1` of year `y`. -/
def daysBeforeMonth (y : Nat) : Nat → Nat
  | 0 => 0
  | 1 => 0
  | m + 2 => daysBeforeMonth y (m + 1) + daysInMonth y (m + 1)

/-- Validity of a structured date-time value (the model covers the
epoch range, i.e. years from 1970 on). -/
def validDateTime (y mo d h mi s : Nat) : Bool :=
  1970 ≤ y && 1 ≤ mo && mo ≤ 12 && 1 ≤ d && d ≤ daysInMonth y mo &&
    h < 24 && mi < 60 && s < 60

/-- Seconds since the UNIX epoch of a valid structured date-time. -/
def dateToEpoch (y mo d h mi s : Nat) : Nat :=
  (((daysBeforeYearOffset (y - 1970) + daysBeforeMonth y mo + (d - 1)) * 24
      + h) * 60 + mi) * 60 + s

/-- Value of a decimal digit character. -/
def digitVal (c : Char) : Option Nat :=
  if c.isDigit then some (c.toNat - 48) else none

/-- Reads a list of decimal digit characters as a number. -/
def digitsToNat (cs : List Char) : Option Nat :=
  cs.foldl
    (fun acc c =>
      match acc, digitVal c with
      | some n, some d => some (n * 10 + d)
      | _, _ => none)
    (some 0)

/-- Parses the fixed ISO-8601 layout used by the library,
`YYYY-MM-DD HH:MM:SS+00`, into its six numeric fields. -/
def parseISO8601 (s : String) :
    Option (Nat × Nat × Nat × Nat × Nat × Nat) :=
  match s.toList with
  | [y1, y2, y3, y4, c1, m1, m2, c2, d1, d2, c3,
     h1, h2, c4, i1, i2, c5, s1, s2, c6, z1, z2] =>
    if c1 = '-' && c2 = '-' && c3 = ' ' && c4 = ':' && c5 = ':' &&
        c6 = '+' && z1 = '0' && z2 = '0' then
      match digitsToNat [y1, y2, y3, y4], digitsToNat [m1, m2],
          digitsToNat [d1, d2], digitsToNat [h1, h2],
          digitsToNat [i1, i2], digitsToNat [s1, s2] with
      | some y, some mo, some d, some h, some mi, some sec =>
          some (y, mo, d, h, mi, sec)
      | _, _, _, _, _, _ => none
    else none
  | _ => none

/-- Modelled from the spec: `to_UNIXtime(x) -> int` from the unseen
`timeformatutils` module — "accepting int / structured date-time /
ISO-8601 string, fails with invalid-input error on unparseable input";
each accepted shape is converted to a canonical integer epoch. -/
def to_UNIXtime : TimeInput → Except String Int
  | .unix n => .ok n
  | .dateTime y mo d h mi s =>
      if validDateTime y mo d h mi s then .ok (Int.ofNat (dateToEpoch y mo d h mi s))
      else .error "invalid time input"
  | .iso8601 str =>
      match parseISO8601 str with
      | some (y, mo, d, h, mi, s) =>
          if validDateTime y mo d h mi s then
            .ok (Int.ofNat (dateToEpoch y mo d h mi s))
          else .error "invalid time input"
      | none => .error "invalid time input"

/-! ### Data model of `Trigger` and its collaborators -/

/-- A condition checks one weather parameter; the shown core reads only
its `weather_param` attribute. -/
structure Condition where
  weather_param : String
deriving DecidableEq

/-- An entry of an alert's `met_conditions`: a record pairing a
condition with the weather value that triggered it. -/
structure MetCondition where
  condition : Condition
  current_value : Int
deriving DecidableEq

/-- An alert fired for a trigger, as read by the shown core:
`id`, `last_update` epoch and the list of met conditions. -/
structure Alert where
  id : String
  last_update : Int
  met_conditions : List MetCondition
deriving DecidableEq

/-- A notification channel identifier. -/
structure AlertChannel where
  name : String
deriving DecidableEq

/-- Modelled from the spec: `AlertChannelsEnum.OWM_API_POLLING`, the
sentinel default channel identifier from the unseen
`pyowm.alertingapi30.enums` module. -/
def AlertChannelsEnum.OWM_API_POLLING : AlertChannel :=
  { name := "OWM API POLLING" }

/-- The two kinds of exception `Trigger.__init__` can raise: Python
`assert` statements raise `AssertionError`, explicit `raise ValueError`
statements raise `ValueError` with a message. -/
inductive PyError where
  | assertionError
  | valueError (msg : String)
deriving DecidableEq

/-- The `Trigger` record with the fields assigned by `__init__`. -/
structure Trigger where
  start : Int
  «end» : Int
  conditions : List Condition
  area : List String
  alerts : List Alert
  alert_channels : List AlertChannel
  id : Option String
deriving DecidableEq

namespace Trigger

/-- `Trigger.__init__(start, end, conditions, area, alerts=None,
alert_channels=None, id=None)` transliterated: the asserts on missing
arguments raise `AssertionError`, the explicit validations raise
`ValueError`, and on success the fields are assigned as in the source. -/
def init (start «end» : Option TimeInput)
    (conditions : Option (List Condition)) (area : Option (List String))
    (alerts : Option (List Alert)) (alert_channels : Option (List AlertChannel))
    (id : Option String) : Except PyError Trigger :=
  match start with
  | none => .error .assertionError
  | some s =>
    match «end» with
    | none => .error .assertionError
    | some e =>
      match to_UNIXtime s with
      | .error m => .error (.valueError m)
      | .ok unix_start =>
        match to_UNIXtime e with
        | .error m => .error (.valueError m)
        | .ok unix_end =>
          if unix_start ≥ unix_end then
            .error (.valueError "Error: the start epoch must precede the end epoch")
          else
            match conditions with
            | none => .error .assertionError
            | some conds =>
              if conds.length = 0 then
                .error (.valueError "A trigger must contain at least one condition: you provided none")
              else
                match area with
                | none => .error .assertionError
                | some ar =>
                  if ar.length = 0 then
                    .error (.valueError "The area for a trigger must contain at least one geoJSON type: you provided none")
                  else
                    .ok
                      { start := unix_start
                        «end» := unix_end
                        conditions := conds
                        area := ar
                        alerts :=
                          match alerts with
                          | none => []
                          | some l => if l.length = 0 then [] else l
                        alert_channels :=
                          match alert_channels with
                          | none => [AlertChannelsEnum.OWM_API_POLLING]
                          | some l =>
                            if l.length = 0 then [AlertChannelsEnum.OWM_API_POLLING]
                            else l
                        id := id }

/-- Body of `get_alert`: `for alert in self.alerts: if alert.id ==
alert_id: return alert` then `return None`. -/
def findAlert (alert_id : String) : List Alert → Option Alert
  | [] => none
  | a :: rest => if a.id == alert_id then some a else findAlert alert_id rest

/-- Body of the loop of `get_alerts_since`: appends every alert with
`alert.last_update >= unix_timestamp`, in stored order. -/
def collectSince (unix_timestamp : Int) : List Alert → List Alert
  | [] => []
  | a :: rest =>
    if a.last_update ≥ unix_timestamp then a :: collectSince unix_timestamp rest
    else collectSince unix_timestamp rest

/-- Inner loop of `get_alerts_on`: scans `met_conditions` and stops at
the first entry whose condition's `weather_param` equals the argument. -/
def hasCondOn (weather_param : String) : List MetCondition → Bool
  | [] => false
  | mc :: rest =>
    if mc.condition.weather_param == weather_param then true
    else hasCondOn weather_param rest

/-- Outer loop of `get_alerts_on`: appends an alert once as soon as one
of its met conditions refers to the requested parameter (the inner
`break`), then moves to the next alert. -/
def collectOn (weather_param : String) : List Alert → List Alert
  | [] => []
  | a :: rest =>
    if hasCondOn weather_param a.met_conditions then
      a :: collectOn weather_param rest
    else collectOn weather_param rest

/-- `Trigger.get_alerts()`: returns the full alert list. -/
def get_alerts (t : Trigger) : List Alert :=
  t.alerts

/-- `Trigger.get_alert(alert_id)`: linear scan for the first alert with
the given id, `None` when absent. -/
def get_alert (t : Trigger) (alert_id : String) : Option Alert :=
  findAlert alert_id t.alerts

/-- `Trigger.get_alerts_since(timestamp)`: normalizes the timestamp via
`timeformatutils.to_UNIXtime` (the same collaborator the constructor
uses) and collects the alerts with `last_update >= unix_timestamp`. -/
def get_alerts_since (t : Trigger) (timestamp : TimeInput) :
    Except String (List Alert) :=
  match to_UNIXtime timestamp with
  | .error m => .error m
  | .ok unix_timestamp => .ok (collectSince unix_timestamp t.alerts)

/-- `Trigger.get_alerts_on(weather_param)`: collects the alerts having
at least one met condition on the given weather parameter. -/
def get_alerts_on (t : Trigger) (weather_param : String) : List Alert :=
  collectOn weather_param t.alerts

/-! State-passing forms of the four query methods.  The Python bodies
contain no assignment to any `self` attribute, so the transliteration
returns the receiver unchanged next to the computed value; these forms
make the frame property of the queries explicit. -/

/-- State-passing form of `get_alerts`. -/
def get_alertsS (t : Trigger) : List Alert × Trigger :=
  (t.alerts, t)

/-- State-passing form of `get_alert`. -/
def get_alertS (t : Trigger) (alert_id : String) : Option Alert × Trigger :=
  (findAlert alert_id t.alerts, t)

/-- State-passing form of `get_alerts_since`. -/
def get_alerts_sinceS (t : Trigger) (timestamp : TimeInput) :
    Except String (List Alert) × Trigger :=
  (match to_UNIXtime timestamp with
   | .error m => .error m
   | .ok unix_timestamp => .ok (collectSince unix_timestamp t.alerts), t)

/-- State-passing form of `get_alerts_on`. -/
def get_alerts_onS (t : Trigger) (weather_param : String) :
    List Alert × Trigger :=
  (collectOn weather_param t.alerts, t)

end Trigger

/-! ### `ImageType` / `ImageTypeEnum` (`pyowm.commons`) -/

/-- An image-type descriptor: symbolic name, MIME type, file
extension. -/
structure ImageType where
  name : String
  mime_type : String
  file_extension : String
deriving DecidableEq

namespace ImageTypeEnum

/-- The PNG record of the registry. -/
def PNG : ImageType := { name := "PNG", mime_type := "image/png", file_extension := "png" }

/-- The GEOTIFF record of the registry. -/
def GEOTIFF : ImageType := { name := "GEOTIFF", mime_type := "image/tiff", file_extension := "tif" }

/-- Modelled from the spec: `ImageTypeEnum` is a fixed, process-wide,
read-only collection of `ImageType` records (the unseen
`pyowm.commons.enums` module), populated once and never mutated; the
unit tests require it to contain a record with MIME type `image/png`
and a record named `GEOTIFF`. -/
def items : List ImageType := [PNG, GEOTIFF]

/-- First record of a list satisfying a predicate, or `None`: the
linear-scan shape shared by both lookups. -/
def scanFirst (p : ImageType → Bool) : List ImageType → Option ImageType
  | [] => none
  | r :: rest => if p r then some r else scanFirst p rest

/-- Modelled from the spec: `lookup_by_mime_type(mime)` — linear scan
over the registry, returning the first record whose `mime_type` equals
the argument (case-sensitive exact match) or a not-found signal. -/
def lookup_by_mime_type (mime : String) : Option ImageType :=
  scanFirst (fun r => r.mime_type == mime) items

/-- Modelled from the spec: `lookup_by_name(name)` — linear scan over
the registry, returning the first record whose `name` equals the
argument (exact match) or a not-found signal. -/
def lookup_by_name (name : String) : Option ImageType :=
  scanFirst (fun r => r.name == name) items

end ImageTypeEnum

/-! ### Sample data used by the concrete witnesses -/

/-- A condition on temperature. -/
def condTemp : Condition := { weather_param := "temp" }

/-- A condition on pressure. -/
def condPress : Condition := { weather_param := "pressure" }

/-- Alert with one temperature condition met, fired at epoch 100. -/
def alertA : Alert :=
  { id := "alert-a", last_update := 100,
    met_conditions := [{ condition := condTemp, current_value := 30 }] }

/-- Alert with a temperature and a pressure condition met, fired at
epoch 200. -/
def alertB : Alert :=
  { id := "alert-b", last_update := 200,
    met_conditions := [{ condition := condTemp, current_value := 40 },
                       { condition := condPress, current_value := 1000 }] }

/-- Alert with two temperature conditions met, fired at epoch 300. -/
def alertC : Alert :=
  { id := "alert-c", last_update := 300,
    met_conditions := [{ condition := condTemp, current_value := 10 },
                       { condition := condTemp, current_value := 20 }] }

/-- First of two alerts sharing the id `dup`. -/
def alertDup1 : Alert := { id := "dup", last_update := 10, met_conditions := [] }

/-- Second of two alerts sharing the id `dup`. -/
def alertDup2 : Alert := { id := "dup", last_update := 20, met_conditions := [] }

/-- A trigger holding three distinct alerts. -/
def t0 : Trigger :=
  { start := 0, «end» := 1000, conditions := [condTemp], area := ["geo"],
    alerts := [alertA, alertB, alertC],
    alert_channels := [AlertChannelsEnum.OWM_API_POLLING], id := none }

/-- A trigger holding two alerts that share an id. -/
def t1 : Trigger :=
  { start := 0, «end» := 1000, conditions := [condTemp], area := ["geo"],
    alerts := [alertDup1, alertDup2],
    alert_channels := [AlertChannelsEnum.OWM_API_POLLING], id := none }

/-- A non-default notification channel. -/
def chEmail : AlertChannel := { name := "EMAIL" }

/-! ### Helper lemmas about the transliterated loops -/

theorem collectSince_eq_filter (u : Int) (l : List Alert) :
    Trigger.collectSince u l = l.filter (fun a => decide (u ≤ a.last_update)) := by
  induction l with
  | nil => rfl
  | cons a rest ih =>
    by_cases hc : u ≤ a.last_update
    · simp [Trigger.collectSince, List.filter_cons, ge_iff_le, hc, ih]
    · simp [Trigger.collectSince, List.filter_cons, ge_iff_le, hc, ih]

theorem hasCondOn_iff (p : String) (l : List MetCondition) :
    Trigger.hasCondOn p l = true ↔ ∃ mc ∈ l, mc.condition.weather_param = p := by
  induction l with
  | nil => simp [Trigger.hasCondOn]
  | cons mc rest ih =>
    by_cases hc : mc.condition.weather_param = p
    · simp [Trigger.hasCondOn, hc]
    · simp [Trigger.hasCondOn, hc, ih]

theorem collectOn_eq_filter (p : String) (l : List Alert) :
    Trigger.collectOn p l = l.filter (fun a => Trigger.hasCondOn p a.met_conditions) := by
  induction l with
  | nil => rfl
  | cons a rest ih =>
    by_cases hc : Trigger.hasCondOn p a.met_conditions = true
    · simp [Trigger.collectOn, List.filter_cons, hc, ih]
    · simp [Trigger.collectOn, List.filter_cons, hc, ih]

theorem findAlert_eq_none_iff (x : String) (l : List Alert) :
    Trigger.findAlert x l = none ↔ ∀ a ∈ l, a.id ≠ x := by
  induction l with
  | nil => simp [Trigger.findAlert]
  | cons a rest ih =>
    by_cases h : a.id = x
    · simp [Trigger.findAlert, h]
    · simp [Trigger.findAlert, h, ih]

theorem findAlert_some (x : String) (l : List Alert) (a : Alert)
    (h : Trigger.findAlert x l = some a) :
    a.id = x ∧ ∃ l1 l2, l = l1 ++ a :: l2 ∧ ∀ b ∈ l1, b.id ≠ x := by
  induction l with
  | nil => simp [Trigger.findAlert] at h
  | cons c rest ih =>
    rw [show Trigger.findAlert x (c :: rest)
          = if c.id == x then some c else Trigger.findAlert x rest from rfl] at h
    by_cases hc : (c.id == x) = true
    · rw [if_pos hc] at h
      injection h with h
      subst h
      exact ⟨beq_iff_eq.mp hc, [], rest, rfl, by simp⟩
    · rw [if_neg hc] at h
      obtain ⟨ha, l1, l2, hl, hfirst⟩ := ih h
      refine ⟨ha, c :: l1, l2, by simp [hl], ?_⟩
      intro b hb
      rcases List.mem_cons.mp hb with hb | hb
      · subst hb
        exact fun hx => hc (beq_iff_eq.mpr hx)
      · exact hfirst b hb

theorem scanFirst_eq_none_iff (p : ImageType → Bool) (l : List ImageType) :
    ImageTypeEnum.scanFirst p l = none ↔ ∀ r ∈ l, p r = false := by
  induction l with
  | nil => simp [ImageTypeEnum.scanFirst]
  | cons r rest ih =>
    by_cases h : p r = true
    · simp [ImageTypeEnum.scanFirst, h]
    · simp only [Bool.not_eq_true] at h
      simp [ImageTypeEnum.scanFirst, h, ih]

theorem scanFirst_some (p : ImageType → Bool) (l : List ImageType)
    (r : ImageType) (h : ImageTypeEnum.scanFirst p l = some r) :
    p r = true ∧ ∃ l1 l2, l = l1 ++ r :: l2 ∧ ∀ q ∈ l1, p q = false := by
  induction l with
  | nil => simp [ImageTypeEnum.scanFirst] at h
  | cons c rest ih =>
    rw [show ImageTypeEnum.scanFirst p (c :: rest)
          = if p c then some c else ImageTypeEnum.scanFirst p rest from rfl] at h
    by_cases hc : p c = true
    · rw [if_pos hc] at h
      injection h with h
      subst h
      exact ⟨hc, [], rest, rfl, by simp⟩
    · rw [if_neg hc] at h
      obtain ⟨hr, l1, l2, hl, hfirst⟩ := ih h
      refine ⟨hr, c :: l1, l2, by simp [hl], ?_⟩
      intro q hq
      rcases List.mem_cons.mp hq with hq | hq
      · subst hq
        simpa using hc
      · exact hfirst q hq

/-- Shared unfolding lemma: on valid inputs `Trigger.init` returns the
fully determined record. -/
theorem trigger_init_ok (s e : TimeInput) (us ue : Int)
    (conds : List Condition) (ar : List String)
    (alerts : Option (List Alert)) (ch : Option (List AlertChannel))
    (id : Option String)
    (hs : to_UNIXtime s = .ok us) (he : to_UNIXtime e = .ok ue)
    (hlt : us < ue) (hc : conds ≠ []) (ha : ar ≠ []) :
    Trigger.init (some s) (some e) (some conds) (some ar) alerts ch id
      = .ok { start := us, «end» := ue, conditions := conds, area := ar,
              alerts := match alerts with
                | none => []
                | some l => if l.length = 0 then [] else l,
              alert_channels := match ch with
                | none => [AlertChannelsEnum.OWM_API_POLLING]
                | some l =>
                  if l.length = 0 then [AlertChannelsEnum.OWM_API_POLLING] else l,
              id := id } := by
  have hge : ¬ us ≥ ue := not_le.mpr hlt
  have hc0 : ¬ conds.length = 0 := fun h0 => hc (List.length_eq_zero.mp h0)
  have ha0 : ¬ ar.length = 0 := fun h0 => ha (List.length_eq_zero.mp h0)
  simp [Trigger.init, hs, he, hge, hc0, ha0]

/-! ### The claims -/

/-- C1: for every input with normalized start epoch strictly below the
normalized end epoch and non-empty `conditions` and `area`, `Trigger`
construction succeeds and the stored `start` and `end` fields equal
`to_UNIXtime(start)` and `to_UNIXtime(end)`. -/
theorem trigger_init_valid (s e : TimeInput) (us ue : Int)
    (conds : List Condition) (ar : List String)
    (alerts : Option (List Alert)) (ch : Option (List AlertChannel))
    (id : Option String)
    (hs : to_UNIXtime s = .ok us) (he : to_UNIXtime e = .ok ue)
    (hlt : us < ue) (hc : conds ≠ []) (ha : ar ≠ []) :
    ∃ t, Trigger.init (some s) (some e) (some conds) (some ar) alerts ch id
        = .ok t ∧ t.start = us ∧ t.«end» = ue :=
  ⟨_, trigger_init_ok s e us ue conds ar alerts ch id hs he hlt hc ha, rfl, rfl⟩

/-- Witness for C1 at a concrete input. -/
theorem trigger_init_valid_witness :
    ∃ t, Trigger.init (some (.unix 100)) (some (.unix 200)) (some [condTemp])
        (some ["geo"]) none none none = .ok t ∧ t.start = 100 ∧ t.«end» = 200 :=
  trigger_init_valid (.unix 100) (.unix 200) 100 200 [condTemp] ["geo"]
    none none none rfl rfl (by decide) (by decide) (by decide)

/-- C2: whenever the normalized start epoch is not strictly below the
normalized end epoch, or `conditions` is empty, or `area` is empty,
`Trigger` construction raises `ValueError`. -/
theorem trigger_init_invalid (s e : TimeInput) (us ue : Int)
    (conds : List Condition) (ar : List String)
    (alerts : Option (List Alert)) (ch : Option (List AlertChannel))
    (id : Option String)
    (hs : to_UNIXtime s = .ok us) (he : to_UNIXtime e = .ok ue)
    (h : us ≥ ue ∨ conds = [] ∨ ar = []) :
    ∃ m, Trigger.init (some s) (some e) (some conds) (some ar) alerts ch id
        = .error (.valueError m) := by
  by_cases hge : us ≥ ue
  · exact ⟨"Error: the start epoch must precede the end epoch",
      by simp [Trigger.init, hs, he, hge]⟩
  · rcases h with h | h | h
    · exact absurd h hge
    · subst h
      exact ⟨"A trigger must contain at least one condition: you provided none",
        by simp [Trigger.init, hs, he, hge]⟩
    · subst h
      by_cases hcs : conds = []
      · subst hcs
        exact ⟨"A trigger must contain at least one condition: you provided none",
          by simp [Trigger.init, hs, he, hge]⟩
      · have hc0 : ¬ conds.length = 0 := fun h0 => hcs (List.length_eq_zero.mp h0)
        exact ⟨"The area for a trigger must contain at least one geoJSON type: you provided none",
          by simp [Trigger.init, hs, he, hge, hc0]⟩

/-- Witness for C2 at a concrete input (inverted start and end). -/
theorem trigger_init_invalid_witness :
    ∃ m, Trigger.init (some (.unix 200)) (some (.unix 100)) (some [condTemp])
        (some ["geo"]) none none none = .error (.valueError m) :=
  trigger_init_invalid (.unix 200) (.unix 100) 200 100 [condTemp] ["geo"]
    none none none rfl rfl (Or.inl (by decide))

/-- C3: the source guards missing `start`/`end` with Python `assert`
statements, which raise `AssertionError`, not the `ValueError` that the
docstring and the spec promise: at `start = None` construction yields
`AssertionError` and no `ValueError` at all. -/
theorem trigger_init_missing_time_asserts :
    (Trigger.init none (some (.unix 100)) (some [condTemp]) (some ["geo"])
        none none none = .error .assertionError) ∧
    (Trigger.init (some (.unix 100)) none (some [condTemp]) (some ["geo"])
        none none none = .error .assertionError) ∧
    (∀ m, Trigger.init none (some (.unix 100)) (some [condTemp]) (some ["geo"])
        none none none ≠ .error (.valueError m)) := by
  refine ⟨rfl, rfl, ?_⟩
  intro m h
  simp [Trigger.init] at h

/-- C4: `get_alerts_since` normalizes its timestamp with the same
`to_UNIXtime` rule the constructor uses and returns exactly the alerts
whose `last_update` is at least the normalized timestamp (inclusive
boundary), in stored order (the result is the filtered subsequence of
the stored list). -/
theorem trigger_get_alerts_since_spec (t : Trigger) (ts : TimeInput) (u : Int)
    (h : to_UNIXtime ts = .ok u) :
    t.get_alerts_since ts
        = .ok (t.alerts.filter (fun a => decide (u ≤ a.last_update))) ∧
    (t.alerts.filter (fun a => decide (u ≤ a.last_update))).Sublist t.alerts := by
  refine ⟨?_, List.filter_sublist _⟩
  simp [Trigger.get_alerts_since, h, collectSince_eq_filter]

/-- Witness for C4: alerts fired at 100, 200, 300 queried since 200
yield the 200 and 300 alerts, in that order. -/
theorem trigger_get_alerts_since_witness :
    t0.get_alerts_since (.unix 200) = .ok [alertB, alertC] := by
  rw [(trigger_get_alerts_since_spec t0 (.unix 200) 200 rfl).1]
  rfl

/-- C5: `get_alert` returns the first stored alert carrying the given
id — on duplicate ids the earliest-inserted match — and `None` exactly
when no stored alert has that id. -/
theorem trigger_get_alert_spec (t : Trigger) (x : String) :
    (∀ a, t.get_alert x = some a →
      a.id = x ∧ ∃ l1 l2, t.alerts = l1 ++ a :: l2 ∧ ∀ b ∈ l1, b.id ≠ x) ∧
    (t.get_alert x = none ↔ ∀ a ∈ t.alerts, a.id ≠ x) :=
  ⟨fun a h => findAlert_some x t.alerts a h, findAlert_eq_none_iff x t.alerts⟩

/-- Witness for C5: of two alerts sharing id `dup` the first is
returned; an unknown id yields `None`. -/
theorem trigger_get_alert_witness :
    t1.get_alert "dup" = some alertDup1 ∧ alertDup1.id = "dup" ∧
    t1.get_alert "zzz" = none := by
  refine ⟨rfl, ?_, ?_⟩
  · exact ((trigger_get_alert_spec t1 "dup").1 alertDup1 rfl).1
  · exact (trigger_get_alert_spec t1 "zzz").2.mpr (by decide)

/-- C6: `get_alerts_on(p)` contains exactly the alerts with at least
one met condition on weather parameter `p`, and each stored alert
occurs in the result at most as often as it is stored — in particular
at most once even when several of its met conditions match `p`. -/
theorem trigger_get_alerts_on_spec (t : Trigger) (p : String) :
    (∀ a, a ∈ t.get_alerts_on p ↔
      a ∈ t.alerts ∧ ∃ mc ∈ a.met_conditions, mc.condition.weather_param = p) ∧
    (∀ a, (t.get_alerts_on p).count a ≤ t.alerts.count a) := by
  constructor
  · intro a
    simp [Trigger.get_alerts_on, collectOn_eq_filter, List.mem_filter,
      hasCondOn_iff]
  · intro a
    have hsub : (Trigger.collectOn p t.alerts).Sublist t.alerts := by
      rw [collectOn_eq_filter]
      exact List.filter_sublist _
    exact hsub.count_le a

/-- Witness for C6: `alertC` has two met conditions on `temp` and
appears exactly once in the result. -/
theorem trigger_get_alerts_on_witness :
    alertC ∈ t0.get_alerts_on "temp" ∧
    (t0.get_alerts_on "temp").count alertC ≤ t0.alerts.count alertC ∧
    t0.alerts.count alertC = 1 := by
  refine ⟨?_, (trigger_get_alerts_on_spec t0 "temp").2 alertC, by decide⟩
  exact ((trigger_get_alerts_on_spec t0 "temp").1 alertC).mpr
    ⟨by decide, by decide⟩

/-- C7: on valid construction, an omitted (`None`) or empty
`alert_channels` argument is stored as the one-element list
`[AlertChannelsEnum.OWM_API_POLLING]`, and a non-empty argument is
stored verbatim. -/
theorem trigger_init_alert_channels (s e : TimeInput) (us ue : Int)
    (conds : List Condition) (ar : List String)
    (alerts : Option (List Alert)) (ch : Option (List AlertChannel))
    (id : Option String)
    (hs : to_UNIXtime s = .ok us) (he : to_UNIXtime e = .ok ue)
    (hlt : us < ue) (hc : conds ≠ []) (ha : ar ≠ []) :
    ((ch = none ∨ ch = some []) →
      ∃ t, Trigger.init (some s) (some e) (some conds) (some ar) alerts ch id
          = .ok t ∧ t.alert_channels = [AlertChannelsEnum.OWM_API_POLLING]) ∧
    (∀ chs, ch = some chs → chs ≠ [] →
      ∃ t, Trigger.init (some s) (some e) (some conds) (some ar) alerts ch id
          = .ok t ∧ t.alert_channels = chs) := by
  constructor
  · intro hch
    rcases hch with hch | hch
    · subst hch
      exact ⟨_, trigger_init_ok s e us ue conds ar alerts none id
        hs he hlt hc ha, rfl⟩
    · subst hch
      exact ⟨_, trigger_init_ok s e us ue conds ar alerts (some []) id
        hs he hlt hc ha, rfl⟩
  · intro chs hch hne
    subst hch
    refine ⟨_, trigger_init_ok s e us ue conds ar alerts (some chs) id
      hs he hlt hc ha, ?_⟩
    have hn0 : ¬ chs.length = 0 := fun h0 => hne (List.length_eq_zero.mp h0)
    simp [hn0]

/-- Witness for C7: omitted channels default to the polling channel; an
explicit non-empty channel list is kept verbatim. -/
theorem trigger_init_alert_channels_witness :
    (∃ t, Trigger.init (some (.unix 1)) (some (.unix 2)) (some [condTemp])
        (some ["geo"]) none none none = .ok t ∧
      t.alert_channels = [AlertChannelsEnum.OWM_API_POLLING]) ∧
    (∃ t, Trigger.init (some (.unix 1)) (some (.unix 2)) (some [condTemp])
        (some ["geo"]) none (some [chEmail]) none = .ok t ∧
      t.alert_channels = [chEmail]) := by
  constructor
  · exact (trigger_init_alert_channels (.unix 1) (.unix 2) 1 2 [condTemp]
      ["geo"] none none none rfl rfl (by decide) (by decide) (by decide)).1
      (Or.inl rfl)
  · exact (trigger_init_alert_channels (.unix 1) (.unix 2) 1 2 [condTemp]
      ["geo"] none (some [chEmail]) none rfl rfl (by decide) (by decide)
      (by decide)).2 [chEmail] rfl (by decide)

/-- C8: both `ImageTypeEnum` lookups return the first registry record
whose attribute exactly equals the argument and `None` exactly when no
record matches; in particular `image/png` and `GEOTIFF` are found and
`unexistent/xyz` and `ZOOMOOO` are not.  Both lookups are total
functions into `Option`, so no error is ever raised. -/
theorem imageTypeEnum_lookup_spec :
    (∀ m r, ImageTypeEnum.lookup_by_mime_type m = some r →
      r.mime_type = m ∧ ∃ l1 l2, ImageTypeEnum.items = l1 ++ r :: l2 ∧
        ∀ q ∈ l1, q.mime_type ≠ m) ∧
    (∀ m, ImageTypeEnum.lookup_by_mime_type m = none ↔
      ∀ r ∈ ImageTypeEnum.items, r.mime_type ≠ m) ∧
    (∀ n r, ImageTypeEnum.lookup_by_name n = some r →
      r.name = n ∧ ∃ l1 l2, ImageTypeEnum.items = l1 ++ r :: l2 ∧
        ∀ q ∈ l1, q.name ≠ n) ∧
    (∀ n, ImageTypeEnum.lookup_by_name n = none ↔
      ∀ r ∈ ImageTypeEnum.items, r.name ≠ n) ∧
    ImageTypeEnum.lookup_by_mime_type "image/png" = some ImageTypeEnum.PNG ∧
    ImageTypeEnum.lookup_by_mime_type "unexistent/xyz" = none ∧
    ImageTypeEnum.lookup_by_name "GEOTIFF" = some ImageTypeEnum.GEOTIFF ∧
    ImageTypeEnum.lookup_by_name "ZOOMOOO" = none := by
  refine ⟨?_, ?_, ?_, ?_, rfl, rfl, rfl, rfl⟩
  · intro m r h
    obtain ⟨hr, l1, l2, hl, hfirst⟩ := scanFirst_some _ _ r h
    refine ⟨by simpa using hr, l1, l2, hl, ?_⟩
    intro q hq
    have h2 := hfirst q hq
    simpa using h2
  · intro m
    rw [ImageTypeEnum.lookup_by_mime_type, scanFirst_eq_none_iff]
    constructor
    · intro hall r hr
      have := hall r hr
      simpa using this
    · intro hall r hr
      simpa using hall r hr
  · intro n r h
    obtain ⟨hr, l1, l2, hl, hfirst⟩ := scanFirst_some _ _ r h
    refine ⟨by simpa using hr, l1, l2, hl, ?_⟩
    intro q hq
    have h2 := hfirst q hq
    simpa using h2
  · intro n
    rw [ImageTypeEnum.lookup_by_name, scanFirst_eq_none_iff]
    constructor
    · intro hall r hr
      have := hall r hr
      simpa using this
    · intro hall r hr
      simpa using hall r hr

/-- Witness for C8: the found records carry the looked-up attributes. -/
theorem imageTypeEnum_lookup_witness :
    ImageTypeEnum.PNG.mime_type = "image/png" ∧
    ImageTypeEnum.GEOTIFF.name = "GEOTIFF" :=
  ⟨(imageTypeEnum_lookup_spec.1 "image/png" ImageTypeEnum.PNG rfl).1,
   (imageTypeEnum_lookup_spec.2.2.1 "GEOTIFF" ImageTypeEnum.GEOTIFF rfl).1⟩

/-- C9: `get_alerts_on` returns a subsequence of the stored alerts:
qualifying alerts keep their relative stored order. -/
theorem trigger_get_alerts_on_sublist (t : Trigger) (p : String) :
    (t.get_alerts_on p).Sublist t.alerts := by
  show (Trigger.collectOn p t.alerts).Sublist t.alerts
  rw [collectOn_eq_filter]
  exact List.filter_sublist _

/-- C10: the four query operations of `Trigger` leave the receiver — all
of its fields — unchanged, agree with their value-level counterparts,
and calling any of them twice with the same argument yields the same
result. -/
theorem trigger_queries_pure (t : Trigger) (x : String) (ts : TimeInput)
    (p : String) :
    t.get_alertsS.2 = t ∧
    (t.get_alertS x).2 = t ∧
    (t.get_alerts_sinceS ts).2 = t ∧
    (t.get_alerts_onS p).2 = t ∧
    t.get_alertsS.1 = t.get_alerts ∧
    (t.get_alertS x).1 = t.get_alert x ∧
    (t.get_alerts_sinceS ts).1 = t.get_alerts_since ts ∧
    (t.get_alerts_onS p).1 = t.get_alerts_on p ∧
    (t.get_alertsS.2.get_alertsS).1 = t.get_alertsS.1 ∧
    ((t.get_alertS x).2.get_alertS x).1 = (t.get_alertS x).1 ∧
    ((t.get_alerts_sinceS ts).2.get_alerts_sinceS ts).1
      = (t.get_alerts_sinceS ts).1 ∧
    ((t.get_alerts_onS p).2.get_alerts_onS p).1 = (t.get_alerts_onS p).1 :=
  ⟨rfl, rfl, rfl, rfl, rfl, rfl, rfl, rfl, rfl, rfl, rfl, rfl⟩

end Pyowm
